import Mathlib

/-!
Shallow embedding of the sandboxed grading engine of the codefreaker
repository (checker protocol, solution evaluation, environment-config
merging, sandbox file operations), together with theorems settling the
specification claims about it.

Source files embedded:
* `codefreaker/box/checkers.py` (the `check` operation),
* `codefreaker/box/schema.py` (`ExpectedOutcome`, `Package`, `Solution`),
* `codefreaker/box/environment.py` (config models and merge functions),
* `robox/box/solutions.py` (`run_solution` limits, `_print_solution_outcome`),
* `codefreaker/grading/judge/sandbox.py` (`SandboxBase` exit constants,
  `SandboxBase.create_file`, `Truncator`).
-/

namespace Codefreaker

/-- Modelled from the spec: the closed `Outcome` enumeration of
`grading/steps.py` (the file itself is not part of the sources at hand;
section 3 of the spec fixes its seven members). -/
inductive Outcome where
  | ACCEPTED
  | WRONG_ANSWER
  | RUNTIME_ERROR
  | TIME_LIMIT_EXCEEDED
  | MEMORY_LIMIT_EXCEEDED
  | JUDGE_FAILED
  | INTERNAL_ERROR
deriving DecidableEq, Repr, Fintype

/-- Modelled from the spec: `CheckerResult` of `grading/steps.py` — "an
`Outcome` plus an optional human-readable message".  `checkers.py`
constructs it as `CheckerResult(outcome=...)`, optionally with
`message=...`; the message defaults to absent. -/
structure CheckerResult where
  outcome : Outcome
  message : Option String := none
deriving DecidableEq, Repr

/-- Modelled from the spec: the fields of `RunLog` (`grading/steps.py`)
that the embedded operations read — "exit status classification, raw exit
code, elapsed CPU time".  Exit statuses are the plain strings declared on
`SandboxBase`; `time` is in seconds (a Python float, embedded as `Rat`). -/
structure RunLog where
  exitstatus : String
  exitcode : Int := 0
  time : Rat := 0
deriving DecidableEq, Repr

namespace SandboxBase

/-- `SandboxBase.EXIT_SANDBOX_ERROR` (`sandbox.py`, line 94). -/
def EXIT_SANDBOX_ERROR : String := "sandbox error"

/-- `SandboxBase.EXIT_OK` (`sandbox.py`, line 95). -/
def EXIT_OK : String := "ok"

/-- `SandboxBase.EXIT_SIGNAL` (`sandbox.py`, line 96). -/
def EXIT_SIGNAL : String := "signal"

/-- `SandboxBase.EXIT_TIMEOUT` (`sandbox.py`, line 97). -/
def EXIT_TIMEOUT : String := "timeout"

/-- `SandboxBase.EXIT_TIMEOUT_WALL` (`sandbox.py`, line 98). -/
def EXIT_TIMEOUT_WALL : String := "wall timeout"

/-- `SandboxBase.EXIT_NONZERO_RETURN` (`sandbox.py`, line 99). -/
def EXIT_NONZERO_RETURN : String := "nonzero return"

/-- Modelled from the spec: `checkers.py` line 35 references
`SandboxBase.EXIT_MEMORY_LIMIT_EXCEEDED`, but the `sandbox.py` at hand
declares no such constant (the concrete sandbox backends that produce
exit-status strings are not among the sources either).  The spec's exit
taxonomy (section 4.1) includes a memory-limit-exceeded classification;
it is modelled as the string following the naming convention of the six
declared constants, distinct from all of them. -/
def EXIT_MEMORY_LIMIT_EXCEEDED : String := "memory limit exceeded"

end SandboxBase

/-- The fields of `Package` (`codefreaker/box/schema.py`, lines 151-185)
read by the embedded operations: `timeLimit` (milliseconds) and
`memoryLimit` (MB). -/
structure Package where
  timeLimit : Int
  memoryLimit : Int
deriving DecidableEq, Repr

/-- The observable result of the checker invocation performed by `check`
(`checkers.py`, lines 58-64): the `exitcode` of the run log returned by
`run_item`, the captured standard-error content (`stderr`, the string
`package.get_digest_as_string(error.value or "") or ""` evaluates to —
the empty string when nothing was captured), and the checker's captured
standard-output content (`stdout`, written into the sandbox but never
read back by `check`). -/
structure CheckerRun where
  exitcode : Int
  stderr : String
  stdout : String
deriving DecidableEq, Repr

/-- `check` (`codefreaker/box/checkers.py`, lines 23-75).  The checker
invocation (`run_item`, line 58) is abstracted as the oracle
`run_checker`; it yields `none` exactly when `run_item` returns `None`
(sandbox-level failure to run the checker). -/
def check (pkg : Package) (run_log : RunLog)
    (run_checker : Unit → Option CheckerRun) : CheckerResult :=
  if run_log.exitstatus = SandboxBase.EXIT_SIGNAL ∨
      run_log.exitstatus = SandboxBase.EXIT_NONZERO_RETURN then
    { outcome := .RUNTIME_ERROR }
  else if run_log.exitstatus = SandboxBase.EXIT_TIMEOUT ∨
      run_log.exitstatus = SandboxBase.EXIT_TIMEOUT_WALL then
    { outcome := .TIME_LIMIT_EXCEEDED }
  else if run_log.exitstatus = SandboxBase.EXIT_MEMORY_LIMIT_EXCEEDED then
    { outcome := .MEMORY_LIMIT_EXCEEDED }
  else if run_log.exitstatus = SandboxBase.EXIT_SANDBOX_ERROR then
    { outcome := .INTERNAL_ERROR }
  else if run_log.time * 1000 > (pkg.timeLimit : Rat) then
    { outcome := .TIME_LIMIT_EXCEEDED }
  else
    match run_checker () with
    | none => { outcome := .INTERNAL_ERROR }
    | some cr =>
      if cr.exitcode = 0 ∨ cr.exitcode = 1 ∨ cr.exitcode = 2 ∨ cr.exitcode = 3 then
        let message := cr.stderr
        if cr.exitcode = 1 ∨ cr.exitcode = 2 then
          { outcome := .WRONG_ANSWER, message := some message }
        else if cr.exitcode = 3 then
          { outcome := .JUDGE_FAILED, message := some message }
        else
          { outcome := .ACCEPTED, message := some message }
      else
        { outcome := .INTERNAL_ERROR }

/-- `ExpectedOutcome` (`codefreaker/box/schema.py`, lines 11-18). -/
inductive ExpectedOutcome where
  | ACCEPTED
  | WRONG_ANSWER
  | INCORRECT
  | RUNTIME_ERROR
  | TIME_LIMIT_EXCEEDED
  | MEMORY_LIMIT_EXCEEDED
  | TLE_OR_RTE
deriving DecidableEq, Repr, Fintype

/-- `ExpectedOutcome.match` (`codefreaker/box/schema.py`, lines 20-42);
named `matches` because `match` is a Lean keyword. -/
def ExpectedOutcome.matches (e : ExpectedOutcome) (outcome : Outcome) : Bool :=
  match e with
  | .ACCEPTED => decide (outcome = Outcome.ACCEPTED)
  | .WRONG_ANSWER => decide (outcome = Outcome.WRONG_ANSWER)
  | .INCORRECT =>
    decide (outcome ∈ [Outcome.WRONG_ANSWER, Outcome.RUNTIME_ERROR,
      Outcome.MEMORY_LIMIT_EXCEEDED, Outcome.TIME_LIMIT_EXCEEDED])
  | .RUNTIME_ERROR => decide (outcome = Outcome.RUNTIME_ERROR)
  | .TIME_LIMIT_EXCEEDED => decide (outcome = Outcome.TIME_LIMIT_EXCEEDED)
  | .MEMORY_LIMIT_EXCEEDED => decide (outcome = Outcome.MEMORY_LIMIT_EXCEEDED)
  | .TLE_OR_RTE =>
    decide (outcome ∈ [Outcome.TIME_LIMIT_EXCEEDED, Outcome.RUNTIME_ERROR])

/-- The field of `Solution` (`codefreaker/box/schema.py`, lines 125-129)
read by the solution report: its declared expected outcome. -/
structure Solution where
  outcome : ExpectedOutcome
deriving DecidableEq, Repr

/-- Modelled from the spec: the fields of `TestcaseLog`
(`robox/grading/steps.py`, not among the sources) read by the report:
the elapsed time of the run (absent when no run log was produced). -/
structure TestcaseLog where
  time : Option Rat := none
deriving DecidableEq, Repr

/-- Modelled from the spec: `Evaluation` — "one (solution, testcase)
result: the CheckerResult, the Testcase, and the RunLog".  Only the
fields read by the solution report are kept. -/
structure Evaluation where
  result : CheckerResult
  log : TestcaseLog
deriving DecidableEq, Repr

/-- Modelled from the spec: `VerificationLevel`
(`robox/box/environment.py`, not among the sources) — "ordered policy
{NONE, FULL, …}".  `solutions.py` compares `verification.value >=
VerificationLevel.FULL.value`; modelled with the two members the spec
names, `NONE` ordered below `FULL`. -/
inductive VerificationLevel where
  | NONE
  | FULL
deriving DecidableEq, Repr

/-- Modelled from the spec: the integral `value` of a
`VerificationLevel` member, respecting the spec's order. -/
def VerificationLevel.value : VerificationLevel → Int
  | .NONE => 0
  | .FULL => 1

/-!
Pydantic models with explicit set-tracking.  A pydantic `BaseModel`
instance remembers which fields were explicitly provided
(`model_fields_set`); `model_dump(exclude_unset=True)` dumps exactly
those.  Each field is embedded as an outer `Option` (`none` = the field
was never explicitly set) around the field's Python value; fields of
Python type `Optional[...]` therefore get a second, inner `Option`.
Declared defaults are applied by the `...Value` accessors below.
-/

/-- `EnvironmentSandbox` (`codefreaker/box/environment.py`, lines
30-50), with pydantic set-tracking as described above. -/
structure EnvironmentSandbox where
  maxProcesses : Option (Option Int) := none
  timeLimit : Option (Option Int) := none
  wallTimeLimit : Option (Option Int) := none
  memoryLimit : Option (Option Int) := none
  stackLimit : Option (Option Int) := none
  preserveEnv : Option (Option Bool) := none
  mirrorDirs : Option (Option (List String)) := none
deriving DecidableEq, Repr

/-- Value of `maxProcesses` (declared default `1`). -/
def EnvironmentSandbox.maxProcessesValue (s : EnvironmentSandbox) : Option Int :=
  s.maxProcesses.getD (some 1)

/-- Value of `timeLimit` (declared default `1000`). -/
def EnvironmentSandbox.timeLimitValue (s : EnvironmentSandbox) : Option Int :=
  s.timeLimit.getD (some 1000)

/-- Value of `wallTimeLimit` (declared default `2000`). -/
def EnvironmentSandbox.wallTimeLimitValue (s : EnvironmentSandbox) : Option Int :=
  s.wallTimeLimit.getD (some 2000)

/-- Value of `memoryLimit` (declared default `256`). -/
def EnvironmentSandbox.memoryLimitValue (s : EnvironmentSandbox) : Option Int :=
  s.memoryLimit.getD (some 256)

/-- Value of `stackLimit` (declared default `None`). -/
def EnvironmentSandbox.stackLimitValue (s : EnvironmentSandbox) : Option Int :=
  s.stackLimit.getD none

/-- Value of `preserveEnv` (declared default `False`). -/
def EnvironmentSandbox.preserveEnvValue (s : EnvironmentSandbox) : Option Bool :=
  s.preserveEnv.getD (some false)

/-- Value of `mirrorDirs` (declared default `[]`). -/
def EnvironmentSandbox.mirrorDirsValue (s : EnvironmentSandbox) : Option (List String) :=
  s.mirrorDirs.getD (some [])

/-- `ExecutionConfig` (`codefreaker/box/environment.py`, lines 61-66),
with pydantic set-tracking. -/
structure ExecutionConfig where
  command : Option (Option String) := none
  sandbox : Option (Option EnvironmentSandbox) := none
deriving DecidableEq, Repr

/-- Value of `ExecutionConfig.command` (declared default `None`). -/
def ExecutionConfig.commandValue (c : ExecutionConfig) : Option String :=
  c.command.getD none

/-- Value of `ExecutionConfig.sandbox` (declared default `None`). -/
def ExecutionConfig.sandboxValue (c : ExecutionConfig) : Option EnvironmentSandbox :=
  c.sandbox.getD none

/-- `CompilationConfig` (`codefreaker/box/environment.py`, lines 53-58),
with pydantic set-tracking. -/
structure CompilationConfig where
  commands : Option (Option (List String)) := none
  sandbox : Option (Option EnvironmentSandbox) := none
deriving DecidableEq, Repr

/-- Value of `CompilationConfig.commands` (declared default `[]`). -/
def CompilationConfig.commandsValue (c : CompilationConfig) : Option (List String) :=
  c.commands.getD (some [])

/-- Value of `CompilationConfig.sandbox` (declared default `None`). -/
def CompilationConfig.sandboxValue (c : CompilationConfig) : Option EnvironmentSandbox :=
  c.sandbox.getD none

/-- Python `a or b` on `Optional[str]` values (`None` and the empty
string are falsy). -/
def pyOrStr (a b : Option String) : Option String :=
  match a with
  | some s => if s = "" then b else some s
  | none => b

/-- Python `a or b` on `Optional[List[str]]` values (`None` and the
empty list are falsy). -/
def pyOrList (a b : Option (List String)) : Option (List String) :=
  match a with
  | some l => if l = [] then b else some l
  | none => b

/-- `_merge_shallow_models` (`codefreaker/box/environment.py`, lines
133-139) at `model = EnvironmentSandbox`: the union of the two dumps of
explicitly set fields, the `override` entry winning, passed back to the
model constructor (so every field present in the union counts as set in
the result).  Both arguments are `Optional` at the call sites in
`_merge_execution_configs` and `_merge_compilation_configs`; a Python
`None` argument raises `AttributeError` when `.model_dump` is called on
it. -/
def merge_shallow_models (base override : Option EnvironmentSandbox) :
    Except String EnvironmentSandbox :=
  match base with
  | none => .error "AttributeError: NoneType object has no attribute model_dump"
  | some b =>
    match override with
    | none => .error "AttributeError: NoneType object has no attribute model_dump"
    | some o =>
      .ok { maxProcesses := o.maxProcesses <|> b.maxProcesses,
            timeLimit := o.timeLimit <|> b.timeLimit,
            wallTimeLimit := o.wallTimeLimit <|> b.wallTimeLimit,
            memoryLimit := o.memoryLimit <|> b.memoryLimit,
            stackLimit := o.stackLimit <|> b.stackLimit,
            preserveEnv := o.preserveEnv <|> b.preserveEnv,
            mirrorDirs := o.mirrorDirs <|> b.mirrorDirs }

/-- `_merge_execution_configs` (`codefreaker/box/environment.py`, lines
170-179).  The accumulator starts as `ExecutionConfig()` (both fields
unset); each step assigns `merged_cfg.command = cfg.command or
merged_cfg.command` and `merged_cfg.sandbox =
_merge_shallow_models(EnvironmentSandbox, cfg.sandbox,
merged_cfg.sandbox)` — note that the call passes the incoming config as
`base` and the accumulator as `override`.  List elements are `Optional`
because `get_execution_config` passes `environment.defaultExecution`,
which may be `None`; a `None` element raises `AttributeError` on
attribute access. -/
def merge_execution_configs (configs : List (Option ExecutionConfig)) :
    Except String ExecutionConfig :=
  configs.foldlM
    (fun merged cfg =>
      match cfg with
      | none => .error "AttributeError: NoneType object has no attribute command"
      | some c =>
        (merge_shallow_models c.sandboxValue merged.sandboxValue).map
          (fun sandbox =>
            { command := some (pyOrStr c.commandValue merged.commandValue),
              sandbox := some (some sandbox) }))
    {}

/-- The hard-coded sandbox assigned to the accumulator at the start of
`_merge_compilation_configs` (`codefreaker/box/environment.py`, lines
146-153).  The keyword arguments `max_processes` and `timelimit` do not
name fields of `EnvironmentSandbox` (the fields are `maxProcesses` and
`timeLimit`); pydantic's default `extra='ignore'` drops them, so those
two fields stay unset. -/
def initial_compilation_sandbox : EnvironmentSandbox :=
  { wallTimeLimit := some (some 10000),
    memoryLimit := some (some 512),
    preserveEnv := some (some true),
    mirrorDirs := some (some ["/etc", "/usr"]) }

/-- `_merge_compilation_configs` (`codefreaker/box/environment.py`,
lines 142-159).  The accumulator starts as `CompilationConfig()` with
`merged_cfg.sandbox` assigned `initial_compilation_sandbox`; each step
assigns `merged_cfg.commands = cfg.commands or merged_cfg.commands` and
`merged_cfg.sandbox = _merge_shallow_models(EnvironmentSandbox,
cfg.sandbox, merged_cfg.sandbox)` — again with the incoming config as
`base` and the accumulator as `override`. -/
def merge_compilation_configs (configs : List (Option CompilationConfig)) :
    Except String CompilationConfig :=
  configs.foldlM
    (fun merged cfg =>
      match cfg with
      | none => .error "AttributeError: NoneType object has no attribute commands"
      | some c =>
        (merge_shallow_models c.sandboxValue merged.sandboxValue).map
          (fun sandbox =>
            { commands := some (pyOrList c.commandsValue merged.commandsValue),
              sandbox := some (some sandbox) }))
    { sandbox := some (some initial_compilation_sandbox) }

/-- The sandbox configuration built by `run_solution`
(`robox/box/solutions.py`, lines 66-73): `sandbox.timeLimit =
pkg.timeLimit`, doubled when `verification.value >=
VerificationLevel.FULL.value`; `sandbox.wallTimeLimit = pkg.timeLimit *
2`; `sandbox.memoryLimit = pkg.memoryLimit`. -/
def run_solution_sandbox (pkg : Package) (verification : VerificationLevel) :
    EnvironmentSandbox :=
  let tl : Int :=
    if verification.value ≥ VerificationLevel.FULL.value then pkg.timeLimit * 2
    else pkg.timeLimit
  { timeLimit := some (some tl),
    wallTimeLimit := some (some (pkg.timeLimit * 2)),
    memoryLimit := some (some pkg.memoryLimit) }

/-- The Python enum-member name of an `Outcome` (`v.name` in
`_print_solution_outcome`, line 225). -/
def Outcome.pyName : Outcome → String
  | .ACCEPTED => "ACCEPTED"
  | .WRONG_ANSWER => "WRONG_ANSWER"
  | .RUNTIME_ERROR => "RUNTIME_ERROR"
  | .TIME_LIMIT_EXCEEDED => "TIME_LIMIT_EXCEEDED"
  | .MEMORY_LIMIT_EXCEEDED => "MEMORY_LIMIT_EXCEEDED"
  | .JUDGE_FAILED => "JUDGE_FAILED"
  | .INTERNAL_ERROR => "INTERNAL_ERROR"

/-- Python `int()` on a rational: truncation toward zero. -/
def pyInt (q : Rat) : Int :=
  if 0 ≤ q then ⌊q⌋ else ⌈q⌉

/-- `_get_evals_time_in_ms` (`robox/box/solutions.py`, lines 191-192):
`max(int((eval.log.time or 0.0) * 1000) for eval in evals)`.  Returns
`none` for the empty list, where Python's `max` raises `ValueError`. -/
def evals_time_in_ms (evals : List Evaluation) : Option Int :=
  (evals.map (fun e => pyInt ((e.log.time.getD 0) * 1000))).max?

/-- The set `bad_verdicts` built by `_print_solution_outcome`
(`robox/box/solutions.py`, lines 207-210): the non-`ACCEPTED` outcomes
occurring among the evaluations. -/
def bad_verdicts (evals : List Evaluation) : Finset Outcome :=
  evals.foldl
    (fun s e =>
      if e.result.outcome ≠ Outcome.ACCEPTED then insert e.result.outcome s else s)
    ∅

/-- The observable outcome of `_print_solution_outcome`: its return
value (`ok`), the printed set of unmatched verdict names (`got`, empty
when the `got:` clause is not printed), and whether the double-TL
warning was printed (`warned`). -/
structure SolutionOutcomeReport where
  ok : Bool
  got : Finset String
  warned : Bool
deriving DecidableEq

/-- `_print_solution_outcome` (`robox/box/solutions.py`, lines 200-240),
reduced to its observable outcome.  `unmatched_bad_verdicts` are the bad
verdicts the solution's expected outcome does not match; the function
returns `len(unmatched_bad_verdicts) == 0`, prints their names when
nonempty, and prints the double-TL warning when the matched bad
verdicts are at most `{TIME_LIMIT_EXCEEDED}`, verification is at least
`FULL`, and the maximal evaluation time lies strictly between the time
limit and its double.  `_get_evals_time_in_ms` raises `ValueError` on an
empty evaluation list before the function returns. -/
def print_solution_outcome (solution : Solution) (evals : List Evaluation)
    (timeLimit : Int) (verification : VerificationLevel) :
    Except String SolutionOutcomeReport :=
  let bad := bad_verdicts evals
  let unmatched := bad.filter (fun v => solution.outcome.matches v = false)
  let matched := bad \ unmatched
  match evals_time_in_ms evals with
  | none => .error "ValueError: max() arg is an empty sequence"
  | some evals_time =>
    .ok { ok := decide (unmatched = ∅),
          got := if unmatched = ∅ then ∅ else unmatched.image Outcome.pyName,
          warned := decide (matched \ {Outcome.TIME_LIMIT_EXCEEDED} = ∅
            ∧ verification.value ≥ VerificationLevel.FULL.value
            ∧ evals_time > timeLimit ∧ evals_time < timeLimit * 2) }

/-- Python `whence` arguments to `seek` (`io.SEEK_SET`, `io.SEEK_CUR`,
`io.SEEK_END`). -/
inductive Whence where
  | SEEK_SET
  | SEEK_CUR
  | SEEK_END
deriving DecidableEq, Repr

/-- A plain binary file object: its byte content and the current file
position.  This models the underlying file wrapped by `Truncator`
(`codefreaker/grading/judge/sandbox.py`); positions may point past the
end of the content, as POSIX allows. -/
structure FileObj where
  content : List Nat
  pos : Nat
deriving DecidableEq, Repr

/-- `tell` on a binary file: the current position. -/
def FileObj.tell (f : FileObj) : Nat := f.pos

/-- `readinto` on a binary file with a buffer of length `buflen`: reads
`min buflen (remaining bytes)` bytes from the current position and
advances it; reading at or past end-of-file yields no bytes. -/
def FileObj.readinto (f : FileObj) (buflen : Nat) : List Nat × FileObj :=
  let k := min buflen (f.content.length - f.pos)
  ((f.content.drop f.pos).take k, { f with pos := f.pos + k })

/-- `seek` on a binary file: computes the target position from `whence`
and `offset`; a negative target raises `OSError`, and targets past
end-of-file are allowed.  Returns the new position. -/
def FileObj.seek (f : FileObj) (offset : Int) (whence : Whence) :
    Except String (Nat × FileObj) :=
  let target : Int :=
    match whence with
    | .SEEK_SET => offset
    | .SEEK_CUR => (f.pos : Int) + offset
    | .SEEK_END => (f.content.length : Int) + offset
  if target < 0 then .error "OSError: [Errno 22] Invalid argument"
  else .ok (target.toNat, { f with pos := target.toNat })

/-- `Truncator` (`codefreaker/grading/judge/sandbox.py`, lines 505-571):
a read-only view of the first `size` bytes of a wrapped file object. -/
structure Truncator where
  fobj : FileObj
  size : Nat
deriving DecidableEq, Repr

/-- `Truncator.tell` (`sandbox.py`, lines 566-568): forwards to the
wrapped object. -/
def Truncator.tell (t : Truncator) : Nat := t.fobj.tell

/-- `Truncator.readinto` (`sandbox.py`, lines 545-552): clips the buffer
to `max(0, size - tell())` bytes and forwards to the wrapped object. -/
def Truncator.readinto (t : Truncator) (buflen : Nat) : List Nat × Truncator :=
  let clipped := min buflen (t.size - t.fobj.tell)
  let r := t.fobj.readinto clipped
  (r.1, { t with fobj := r.2 })

/-- `Truncator.seek` (`sandbox.py`, lines 554-563): seeks relative to
end-of-file are adjusted so that `min(real size, size)` acts as the end
(`self.fobj.seek(0, SEEK_END)`, clamped back to `size` when beyond it,
then `seek(offset, SEEK_CUR)`); other seeks are forwarded unchanged. -/
def Truncator.seek (t : Truncator) (offset : Int) (whence : Whence) :
    Except String (Nat × Truncator) :=
  match whence with
  | .SEEK_END =>
    match t.fobj.seek 0 .SEEK_END with
    | .error e => .error e
    | .ok r1 =>
      let f2 : FileObj :=
        if r1.1 > t.size then
          match r1.2.seek (t.size : Int) .SEEK_SET with
          | .ok r => r.2
          | .error _ => r1.2
        else r1.2
      match f2.seek offset .SEEK_CUR with
      | .error e => .error e
      | .ok r3 => .ok (r3.1, { t with fobj := r3.2 })
  | w =>
    match t.fobj.seek offset w with
    | .error e => .error e
    | .ok r => .ok (r.1, { t with fobj := r.2 })

/-- `Truncator.write` (`sandbox.py`, lines 569-571): always raises
`io.UnsupportedOperation`. -/
def Truncator.write (_t : Truncator) (_data : List Nat) :
    Except String (Nat × Truncator) :=
  .error "io.UnsupportedOperation: write"

/-- Follows the spec's words, for comparison with `Truncator`: the file
"as if it contained only its first N bytes", at the same position. -/
def Truncator.specView (t : Truncator) : FileObj :=
  { content := t.fobj.content.take t.size, pos := t.fobj.pos }

/-- A sandbox-relative file system, as an association list from paths to
byte contents (first binding wins). -/
def SandboxFs : Type := List (String × List Nat)

/-- Look a path up in a sandbox file system. -/
def fs_lookup (fs : SandboxFs) (path : String) : Option (List Nat) :=
  (fs.find? (fun e => e.1 == path)).map (fun e => e.2)

/-- `real_path.unlink(missing_ok=True)`: drop any binding for `path`. -/
def fs_unlink (fs : SandboxFs) (path : String) : SandboxFs :=
  fs.filter (fun e => !(e.1 == path))

/-- `SandboxBase.create_file` (`codefreaker/grading/judge/sandbox.py`,
lines 244-280), reduced to its effect on the sandbox file system: when
`override` is set, the existing file (if any) is unlinked first; then
the file is created empty with `os.open(path, O_CREAT | O_EXCL |
O_WRONLY)`, which raises `OSError` if a file already exists at the path.
The `executable` flag only affects permission bits, which are not
modelled. -/
def SandboxBase.create_file (fs : SandboxFs) (path : String)
    (_executable override : Bool) : Except String SandboxFs :=
  let fs := if override then fs_unlink fs path else fs
  if (fs_lookup fs path).isSome then
    .error "OSError: [Errno 17] File exists"
  else
    .ok ((path, []) :: fs)

/-!  Theorems settling the claims.  -/

/-- The six exit-status strings that short-circuit `check`. -/
def shortCircuitStatuses : List String :=
  [SandboxBase.EXIT_SIGNAL, SandboxBase.EXIT_NONZERO_RETURN,
   SandboxBase.EXIT_TIMEOUT, SandboxBase.EXIT_TIMEOUT_WALL,
   SandboxBase.EXIT_MEMORY_LIMIT_EXCEEDED, SandboxBase.EXIT_SANDBOX_ERROR]

/-- Helper: when no short-circuit applies and the time is within the
limit, `check` reduces to the checker-run mapping. -/
theorem check_eq_of_no_short_circuit (pkg : Package) (rl : RunLog)
    (o : Unit → Option CheckerRun)
    (hs : rl.exitstatus ∉ shortCircuitStatuses)
    (ht : ¬ rl.time * 1000 > (pkg.timeLimit : Rat)) :
    check pkg rl o =
      match o () with
      | none => { outcome := .INTERNAL_ERROR }
      | some cr =>
        if cr.exitcode = 0 ∨ cr.exitcode = 1 ∨ cr.exitcode = 2 ∨ cr.exitcode = 3 then
          if cr.exitcode = 1 ∨ cr.exitcode = 2 then
            { outcome := .WRONG_ANSWER, message := some cr.stderr }
          else if cr.exitcode = 3 then
            { outcome := .JUDGE_FAILED, message := some cr.stderr }
          else
            { outcome := .ACCEPTED, message := some cr.stderr }
        else
          { outcome := .INTERNAL_ERROR } := by
  simp only [shortCircuitStatuses, List.mem_cons, List.not_mem_nil, or_false,
    not_or] at hs
  obtain ⟨n1, n2, n3, n4, n5, n6⟩ := hs
  unfold check
  rw [if_neg (by tauto), if_neg (by tauto), if_neg n5, if_neg n6, if_neg ht]

/-- C1: for every checker invocation that `check` performs (no
short-circuit on the program's run log, observed time within the
declared limit), the checker's exit code is mapped to the outcome as:
`0 → ACCEPTED`, `1`/`2 → WRONG_ANSWER`, `3 → JUDGE_FAILED`, any other
exit code → `INTERNAL_ERROR`, an absent checker run log →
`INTERNAL_ERROR`; and the result is independent of the checker's
captured standard output. -/
theorem checker_exit_code_mapping (pkg : Package) (rl : RunLog) (cr : CheckerRun)
    (hs : rl.exitstatus ∉ shortCircuitStatuses)
    (ht : ¬ rl.time * 1000 > (pkg.timeLimit : Rat)) :
    check pkg rl (fun _ => none) = { outcome := .INTERNAL_ERROR }
    ∧ (cr.exitcode = 0 →
        (check pkg rl (fun _ => some cr)).outcome = .ACCEPTED)
    ∧ (cr.exitcode = 1 ∨ cr.exitcode = 2 →
        (check pkg rl (fun _ => some cr)).outcome = .WRONG_ANSWER)
    ∧ (cr.exitcode = 3 →
        (check pkg rl (fun _ => some cr)).outcome = .JUDGE_FAILED)
    ∧ (cr.exitcode ∉ ([0, 1, 2, 3] : List Int) →
        (check pkg rl (fun _ => some cr)).outcome = .INTERNAL_ERROR)
    ∧ (∀ s, check pkg rl (fun _ => some { cr with stdout := s }) =
        check pkg rl (fun _ => some cr)) := by
  rw [check_eq_of_no_short_circuit pkg rl _ hs ht,
    check_eq_of_no_short_circuit pkg rl _ hs ht]
  refine ⟨rfl, ?_, ?_, ?_, ?_, ?_⟩
  · intro h0
    simp [h0]
  · rintro (h1 | h2)
    · simp [h1]
    · simp [h2]
  · intro h3
    simp [h3]
  · intro hn
    simp only [List.mem_cons, List.not_mem_nil, or_false, not_or] at hn
    obtain ⟨m0, m1, m2, m3⟩ := hn
    simp [m0, m1, m2, m3]
  · intro s
    rw [check_eq_of_no_short_circuit pkg rl _ hs ht]

/-- Witness for `checker_exit_code_mapping` at the concrete inputs of
the spec's test vector: an `ok` run taking 0.5 s under a 1000 ms limit,
checker exit code 0. -/
theorem checker_exit_code_mapping_witness :
    (RunLog.mk "ok" 0 (1/2)).exitstatus ∉ shortCircuitStatuses
    ∧ ¬ (RunLog.mk "ok" 0 (1/2)).time * 1000 > ((Package.mk 1000 256).timeLimit : Rat)
    ∧ (check (Package.mk 1000 256) (RunLog.mk "ok" 0 (1/2))
        (fun _ => some (CheckerRun.mk 0 "diag" "out"))).outcome = .ACCEPTED :=
  ⟨by decide, by norm_num,
    (checker_exit_code_mapping (Package.mk 1000 256) (RunLog.mk "ok" 0 (1/2))
      (CheckerRun.mk 0 "diag" "out") (by decide) (by norm_num)).2.1 rfl⟩

/-- C2: a run log whose exit status is `signal`, `nonzero return`,
`timeout`, `wall timeout`, `memory limit exceeded` or `sandbox error`
short-circuits `check` to the corresponding outcome,
without the checker ever being invoked (the result does not depend on
the checker oracle), and the violation is returned as an `Outcome`
value, never raised. -/
theorem run_log_short_circuit (pkg : Package) (rl : RunLog)
    (o o' : Unit → Option CheckerRun) :
    (rl.exitstatus = SandboxBase.EXIT_SIGNAL ∨
        rl.exitstatus = SandboxBase.EXIT_NONZERO_RETURN →
      check pkg rl o = { outcome := .RUNTIME_ERROR })
    ∧ (rl.exitstatus = SandboxBase.EXIT_TIMEOUT ∨
        rl.exitstatus = SandboxBase.EXIT_TIMEOUT_WALL →
      check pkg rl o = { outcome := .TIME_LIMIT_EXCEEDED })
    ∧ (rl.exitstatus = SandboxBase.EXIT_MEMORY_LIMIT_EXCEEDED →
      check pkg rl o = { outcome := .MEMORY_LIMIT_EXCEEDED })
    ∧ (rl.exitstatus = SandboxBase.EXIT_SANDBOX_ERROR →
      check pkg rl o = { outcome := .INTERNAL_ERROR })
    ∧ (rl.exitstatus ∈ shortCircuitStatuses →
      check pkg rl o = check pkg rl o') := by
  refine ⟨?_, ?_, ?_, ?_, ?_⟩
  · intro h
    unfold check
    rw [if_pos h]
  · intro h
    unfold check
    have hne : ¬ (rl.exitstatus = SandboxBase.EXIT_SIGNAL ∨
        rl.exitstatus = SandboxBase.EXIT_NONZERO_RETURN) := by
      rcases h with h | h <;> rw [h] <;> decide
    rw [if_neg hne, if_pos h]
  · intro h
    unfold check
    rw [if_neg (by rw [h]; decide), if_neg (by rw [h]; decide), if_pos h]
  · intro h
    unfold check
    rw [if_neg (by rw [h]; decide), if_neg (by rw [h]; decide),
      if_neg (by rw [h]; decide), if_pos h]
  · intro h
    simp only [shortCircuitStatuses, List.mem_cons, List.not_mem_nil, or_false] at h
    unfold check
    rcases h with h | h | h | h | h | h <;> rw [h] <;> rfl

/-- Witness for `run_log_short_circuit`: a `timeout` run log maps to
`TIME_LIMIT_EXCEEDED` for two different checker oracles. -/
theorem run_log_short_circuit_witness :
    check (Package.mk 1000 256) (RunLog.mk "timeout" 0 2)
        (fun _ => some (CheckerRun.mk 0 "" "")) =
      { outcome := .TIME_LIMIT_EXCEEDED } :=
  (run_log_short_circuit (Package.mk 1000 256) (RunLog.mk "timeout" 0 2)
      (fun _ => some (CheckerRun.mk 0 "" "")) (fun _ => none)).2.1 (Or.inl rfl)

/-- Helper: an `ok` run over the declared time limit makes `check`
return `TIME_LIMIT_EXCEEDED` for any checker oracle. -/
theorem check_of_time_exceeded (pkg : Package) (rl : RunLog)
    (o : Unit → Option CheckerRun)
    (hs : rl.exitstatus = SandboxBase.EXIT_OK)
    (ht : rl.time * 1000 > (pkg.timeLimit : Rat)) :
    check pkg rl o = { outcome := .TIME_LIMIT_EXCEEDED } := by
  unfold check
  rw [if_neg (by rw [hs]; decide), if_neg (by rw [hs]; decide),
    if_neg (by rw [hs]; decide), if_neg (by rw [hs]; decide), if_pos ht]

/-- C5: a run log with exit status `ok` whose observed time (in
milliseconds) exceeds the package's declared `timeLimit` makes `check`
return `TIME_LIMIT_EXCEEDED`, without the checker being invoked (the
result does not depend on the checker oracle). -/
theorem ok_run_over_nominal_limit (pkg : Package) (rl : RunLog)
    (o o' : Unit → Option CheckerRun)
    (hs : rl.exitstatus = SandboxBase.EXIT_OK)
    (ht : rl.time * 1000 > (pkg.timeLimit : Rat)) :
    check pkg rl o = { outcome := .TIME_LIMIT_EXCEEDED }
    ∧ check pkg rl o = check pkg rl o' :=
  ⟨check_of_time_exceeded pkg rl o hs ht,
    (check_of_time_exceeded pkg rl o hs ht).trans
      (check_of_time_exceeded pkg rl o' hs ht).symm⟩

/-- Witness for `ok_run_over_nominal_limit`: an `ok` run of 1.5 s under
a 1000 ms limit. -/
theorem ok_run_over_nominal_limit_witness :
    check (Package.mk 1000 256) (RunLog.mk "ok" 0 (3/2))
        (fun _ => some (CheckerRun.mk 0 "" "")) =
      { outcome := .TIME_LIMIT_EXCEEDED } :=
  (ok_run_over_nominal_limit (Package.mk 1000 256) (RunLog.mk "ok" 0 (3/2))
      (fun _ => some (CheckerRun.mk 0 "" "")) (fun _ => none)
      rfl (by norm_num)).1

/-- C9: the `signal` and `nonzero return` exit classifications both map
to the single result `{ outcome := RUNTIME_ERROR, message := none }`, so
the two termination causes are indistinguishable in the returned
`CheckerResult`, which carries no diagnostic message. -/
theorem signal_and_nonzero_collapse (pkg : Package) (rl : RunLog)
    (o : Unit → Option CheckerRun)
    (h : rl.exitstatus = SandboxBase.EXIT_SIGNAL ∨
      rl.exitstatus = SandboxBase.EXIT_NONZERO_RETURN) :
    check pkg rl o = { outcome := .RUNTIME_ERROR, message := none } := by
  unfold check
  rw [if_pos h]

/-- Witness for `signal_and_nonzero_collapse`: a `signal` run log and a
`nonzero return` run log give the identical result. -/
theorem signal_and_nonzero_collapse_witness :
    check (Package.mk 1000 256) (RunLog.mk "signal" 9 0) (fun _ => none) =
      { outcome := .RUNTIME_ERROR, message := none }
    ∧ check (Package.mk 1000 256) (RunLog.mk "nonzero return" 1 0) (fun _ => none) =
      { outcome := .RUNTIME_ERROR, message := none } :=
  ⟨signal_and_nonzero_collapse (Package.mk 1000 256) (RunLog.mk "signal" 9 0)
      (fun _ => none) (Or.inl rfl),
    signal_and_nonzero_collapse (Package.mk 1000 256)
      (RunLog.mk "nonzero return" 1 0) (fun _ => none) (Or.inr rfl)⟩

/-- C7, counterexample: the checker is actually run (run log present),
exits with the undeclared code 42 and a nonempty standard-error stream
`"oops"`, yet the returned `INTERNAL_ERROR` result carries no message at
all — refuting "the checker's standard-error stream becomes the result's
diagnostic message regardless of which verdict is produced". -/
theorem checker_stderr_dropped_on_protocol_violation :
    (check (Package.mk 1000 256) (RunLog.mk "ok" 0 (1/2))
        (fun _ => some (CheckerRun.mk 42 "oops" ""))).outcome = .INTERNAL_ERROR
    ∧ (check (Package.mk 1000 256) (RunLog.mk "ok" 0 (1/2))
        (fun _ => some (CheckerRun.mk 42 "oops" ""))).message = none := by
  have h := check_eq_of_no_short_circuit (Package.mk 1000 256)
    (RunLog.mk "ok" 0 (1/2)) (fun _ => some (CheckerRun.mk 42 "oops" ""))
    (by decide) (by norm_num)
  rw [h]
  norm_num

/-- C7, amended: for every invocation in which the checker is actually
run and exits with one of the contractual codes `0`, `1`, `2`, `3`, the
checker's captured standard-error stream becomes the result's diagnostic
message, whichever of the four verdicts is produced; on the
protocol-violation path (any other exit code) the result carries no
message. -/
theorem checker_stderr_becomes_message (pkg : Package) (rl : RunLog)
    (cr : CheckerRun)
    (hs : rl.exitstatus ∉ shortCircuitStatuses)
    (ht : ¬ rl.time * 1000 > (pkg.timeLimit : Rat)) :
    (cr.exitcode ∈ ([0, 1, 2, 3] : List Int) →
      (check pkg rl (fun _ => some cr)).message = some cr.stderr)
    ∧ (cr.exitcode ∉ ([0, 1, 2, 3] : List Int) →
      (check pkg rl (fun _ => some cr)).message = none) := by
  rw [check_eq_of_no_short_circuit pkg rl _ hs ht]
  dsimp only
  constructor
  · intro hc
    simp only [List.mem_cons, List.not_mem_nil, or_false] at hc
    rw [if_pos hc]
    rcases hc with h | h | h | h
    · rw [if_neg (by omega), if_neg (by omega)]
    · rw [if_pos (Or.inl h)]
    · rw [if_pos (Or.inr h)]
    · rw [if_neg (by omega), if_pos h]
  · intro hc
    simp only [List.mem_cons, List.not_mem_nil, or_false] at hc
    rw [if_neg hc]

/-- C3, counterexample: under `VerificationLevel.FULL` with a nominal
package time limit of 1000 ms, a solution run that takes 1.4 s, exits 0
with exit status `ok`, and whose output the checker accepts (exit code
0) gets evaluation outcome `TIME_LIMIT_EXCEEDED`, not `ACCEPTED`:
`check` still compares the observed time against the nominal
`pkg.timeLimit`, whatever the verification level. -/
theorem full_verification_slack_not_accepted :
    (check (Package.mk 1000 256) (RunLog.mk "ok" 0 (7/5))
        (fun _ => some (CheckerRun.mk 0 "" ""))).outcome = .TIME_LIMIT_EXCEEDED
    ∧ (check (Package.mk 1000 256) (RunLog.mk "ok" 0 (7/5))
        (fun _ => some (CheckerRun.mk 0 "" ""))).outcome ≠ .ACCEPTED := by
  have h := check_of_time_exceeded (Package.mk 1000 256) (RunLog.mk "ok" 0 (7/5))
    (fun _ => some (CheckerRun.mk 0 "" "")) rfl (by norm_num)
  rw [h]
  exact ⟨rfl, by decide⟩

/-- C3, amended: under `VerificationLevel.FULL` with nominal limit
1000 ms, the run step's effective CPU time limit is doubled to 2000 ms
(wall limit 2000 ms), so the 1.4 s run is allowed to finish; but the
evaluation outcome is `TIME_LIMIT_EXCEEDED`, because the check step
still applies the nominal 1000 ms limit; the "still passed in double TL"
warning is nevertheless emitted, since 1000 < 1400 < 2000 (and the
report fails for this expected-`ACCEPTED` solution). -/
theorem full_verification_slack_amended :
    (run_solution_sandbox (Package.mk 1000 256) .FULL).timeLimitValue = some 2000
    ∧ (run_solution_sandbox (Package.mk 1000 256) .FULL).wallTimeLimitValue = some 2000
    ∧ (run_solution_sandbox (Package.mk 1000 256) .NONE).timeLimitValue = some 1000
    ∧ (check (Package.mk 1000 256) (RunLog.mk "ok" 0 (7/5))
        (fun _ => some (CheckerRun.mk 0 "" ""))).outcome = .TIME_LIMIT_EXCEEDED
    ∧ print_solution_outcome (Solution.mk .ACCEPTED)
        [Evaluation.mk { outcome := .TIME_LIMIT_EXCEEDED }
          (TestcaseLog.mk (some (7/5)))] 1000 .FULL =
      .ok { ok := false, got := {"TIME_LIMIT_EXCEEDED"}, warned := true } := by
  refine ⟨by decide, by decide, by decide, ?_, ?_⟩
  · rw [check_of_time_exceeded (Package.mk 1000 256) (RunLog.mk "ok" 0 (7/5))
      (fun _ => some (CheckerRun.mk 0 "" "")) rfl (by norm_num)]
  · have htime : pyInt ((Option.getD (some ((7:Rat)/5)) 0) * 1000) = 1400 := by
      norm_num [pyInt]
    simp only [print_solution_outcome, evals_time_in_ms, List.map_cons,
      List.map_nil, List.max?_cons, List.max?_nil, List.foldl_cons,
      List.foldl_nil, htime]
    norm_num [bad_verdicts, ExpectedOutcome.matches, Outcome.pyName,
      VerificationLevel.value]
    decide

/-- Helper: membership in the fold that builds `bad_verdicts`. -/
theorem mem_bad_verdicts_foldl (evals : List Evaluation) (s : Finset Outcome)
    (v : Outcome) :
    v ∈ evals.foldl
        (fun s e =>
          if e.result.outcome ≠ Outcome.ACCEPTED then insert e.result.outcome s
          else s) s ↔
      v ∈ s ∨ (v ≠ Outcome.ACCEPTED ∧ ∃ e ∈ evals, e.result.outcome = v) := by
  induction evals generalizing s with
  | nil => simp
  | cons e rest ih =>
    simp only [List.foldl_cons, List.mem_cons]
    by_cases h : e.result.outcome = Outcome.ACCEPTED
    · rw [if_neg (by simp [h]), ih]
      constructor
      · rintro (hv | ⟨hvne, e', he', rfl⟩)
        · exact Or.inl hv
        · exact Or.inr ⟨hvne, e', Or.inr he', rfl⟩
      · rintro (hv | ⟨hvne, e', (rfl | he'), rfl⟩)
        · exact Or.inl hv
        · exact absurd h hvne
        · exact Or.inr ⟨hvne, e', he', rfl⟩
    · rw [if_pos (by simp [h]), ih]
      simp only [Finset.mem_insert]
      constructor
      · rintro ((rfl | hv) | ⟨hvne, e', he', rfl⟩)
        · exact Or.inr ⟨h, e, Or.inl rfl, rfl⟩
        · exact Or.inl hv
        · exact Or.inr ⟨hvne, e', Or.inr he', rfl⟩
      · rintro (hv | ⟨hvne, e', (rfl | he'), rfl⟩)
        · exact Or.inl (Or.inr hv)
        · exact Or.inl (Or.inl rfl)
        · exact Or.inr ⟨hvne, e', he', rfl⟩

/-- Helper: the verdicts collected into `bad_verdicts` are exactly the
non-`ACCEPTED` outcomes occurring among the evaluations. -/
theorem mem_bad_verdicts (evals : List Evaluation) (v : Outcome) :
    v ∈ bad_verdicts evals ↔
      v ≠ Outcome.ACCEPTED ∧ ∃ e ∈ evals, e.result.outcome = v := by
  simpa [bad_verdicts] using mem_bad_verdicts_foldl evals ∅ v

/-- C4, counterexample: a solution declared with expected outcome
`WRONG_ANSWER` whose single evaluation verdict is `ACCEPTED` — a verdict
the declared policy does not accept (`matches` is `false`) — still
passes the solution-level report, because only non-`ACCEPTED` verdicts
are ever collected and tested against the policy. -/
theorem solution_report_passes_despite_unaccepted_verdict :
    print_solution_outcome (Solution.mk .WRONG_ANSWER)
        [Evaluation.mk { outcome := .ACCEPTED } (TestcaseLog.mk (some 0))]
        1000 .NONE =
      .ok { ok := true, got := ∅, warned := false }
    ∧ ExpectedOutcome.WRONG_ANSWER.matches Outcome.ACCEPTED = false := by
  have htime : pyInt ((Option.getD (some (0:Rat)) 0) * 1000) = 0 := by
    norm_num [pyInt]
  constructor
  · simp only [print_solution_outcome, evals_time_in_ms, List.map_cons,
      List.map_nil, List.max?_cons, List.max?_nil, List.foldl_cons,
      List.foldl_nil, htime]
    norm_num [bad_verdicts, ExpectedOutcome.matches, VerificationLevel.value]
  · decide

/-- C4, amended: for every solution and nonempty evaluation list, the
report returns a value, and it passes if and only if no **non-ACCEPTED**
verdict occurred that the solution's declared expected-outcome policy
does not accept (`ACCEPTED` verdicts are never counted against the
policy); a solution declared should-TLE whose only verdict is
`TIME_LIMIT_EXCEEDED` passes, and a solution declared `ACCEPTED` with a
single `WRONG_ANSWER` among ten `ACCEPTED` testcases fails with
`WRONG_ANSWER` named. -/
theorem solution_report_passes_iff (solution : Solution)
    (evals : List Evaluation) (tl : Int) (ver : VerificationLevel)
    (hne : evals ≠ []) :
    (∃ r, print_solution_outcome solution evals tl ver = .ok r
      ∧ (r.ok = true ↔ ∀ e ∈ evals, e.result.outcome ≠ Outcome.ACCEPTED →
          solution.outcome.matches e.result.outcome = true))
    ∧ (print_solution_outcome (Solution.mk .TIME_LIMIT_EXCEEDED)
        [Evaluation.mk { outcome := .TIME_LIMIT_EXCEEDED }
          (TestcaseLog.mk (some 0))] 1000 .NONE).map
        (fun r => r.ok) = .ok true
    ∧ (print_solution_outcome (Solution.mk .ACCEPTED)
        (Evaluation.mk { outcome := .WRONG_ANSWER } (TestcaseLog.mk (some 0)) ::
          List.replicate 10
            (Evaluation.mk { outcome := .ACCEPTED } (TestcaseLog.mk (some 0))))
        1000 .NONE).map
        (fun r => (r.ok, r.got)) = .ok (false, {"WRONG_ANSWER"}) := by
  refine ⟨?_, ?_, ?_⟩
  · cases evals with
    | nil => exact absurd rfl hne
    | cons e rest =>
      refine ⟨_, rfl, ?_⟩
      rw [decide_eq_true_eq, Finset.filter_eq_empty_iff]
      constructor
      · intro h e' he' hne'
        have := h ((mem_bad_verdicts (e :: rest) e'.result.outcome).2
          ⟨hne', e', he', rfl⟩)
        simpa using this
      · intro h v hv
        obtain ⟨hvne, e', he', rfl⟩ := (mem_bad_verdicts (e :: rest) _).1 hv
        simp [h e' he' hvne]
  · rfl
  · rfl

/-- Witness for `solution_report_passes_iff` at a concrete nonempty
evaluation list. -/
theorem solution_report_passes_iff_witness :
    ∃ r, print_solution_outcome (Solution.mk .ACCEPTED)
        [Evaluation.mk { outcome := .ACCEPTED } (TestcaseLog.mk (some 0))]
        1000 .NONE = .ok r
      ∧ (r.ok = true ↔ ∀ e ∈
          [Evaluation.mk ({ outcome := .ACCEPTED } : CheckerResult)
            (TestcaseLog.mk (some 0))],
          e.result.outcome ≠ Outcome.ACCEPTED →
            (Solution.mk .ACCEPTED).outcome.matches e.result.outcome = true) :=
  (solution_report_passes_iff (Solution.mk .ACCEPTED)
    [Evaluation.mk { outcome := .ACCEPTED } (TestcaseLog.mk (some 0))]
    1000 .NONE (by simp)).1

/-- C6: evaluated at a concrete pair (environment-wide default config as
base, per-language config as override), the execution-config resolution
raises `AttributeError` — the accumulator starts with `sandbox = None`
and is passed as `override` to `_merge_shallow_models`, which calls
`.model_dump` on it — and the compilation-config resolution resolves the
`wallTimeLimit` explicitly set in both configs to the hard-coded initial
`10000`: the call sites pass the accumulated config as `override`, so an
explicitly set per-language field can never win. -/
theorem config_merge_override_loses :
    merge_execution_configs
        [some { sandbox := some (some { timeLimit := some (some 5000) }) },
         some { sandbox := some (some { timeLimit := some (some 3000) }) }] =
      .error "AttributeError: NoneType object has no attribute model_dump"
    ∧ (merge_compilation_configs
        [some { sandbox := some (some { wallTimeLimit := some (some 123) }) },
         some { sandbox := some (some { wallTimeLimit := some (some 456) }) }]).map
        (fun c => c.sandboxValue.map (fun s => s.wallTimeLimitValue)) =
      .ok (some (some 10000)) := by
  constructor <;> rfl

/-- Helper: closed form of `FileObj.seek` relative to end-of-file. -/
theorem fileObj_seek_end (content : List Nat) (pos : Nat) (offset : Int) :
    FileObj.seek ⟨content, pos⟩ offset .SEEK_END =
      if (content.length : Int) + offset < 0 then
        .error "OSError: [Errno 22] Invalid argument"
      else .ok (((content.length : Int) + offset).toNat,
        ⟨content, ((content.length : Int) + offset).toNat⟩) := rfl

/-- Helper: closed form of `Truncator.seek` relative to end-of-file —
the end is taken at `min size (real length)`. -/
theorem truncator_seek_end (content : List Nat) (pos N : Nat) (offset : Int) :
    Truncator.seek ⟨⟨content, pos⟩, N⟩ offset .SEEK_END =
      if ((min N content.length : Nat) : Int) + offset < 0 then
        .error "OSError: [Errno 22] Invalid argument"
      else .ok ((((min N content.length : Nat) : Int) + offset).toNat,
        ⟨⟨content, (((min N content.length : Nat) : Int) + offset).toNat⟩, N⟩) := by
  have hlen0 : ¬ ((content.length : Int) + 0 < 0) := by omega
  have hN0 : ¬ ((N : Int) < 0) := by omega
  simp only [Truncator.seek, FileObj.seek, if_neg hlen0, if_neg hN0]
  by_cases hgt : ((content.length : Int) + 0).toNat > N
  · rw [if_pos hgt]
    rw [show ((((N : Int).toNat : Nat)) : Int) =
      ((min N content.length : Nat) : Int) from by omega]
    by_cases hc : ((min N content.length : Nat) : Int) + offset < 0
    · simp only [if_pos hc]
    · simp only [if_neg hc]
  · rw [if_neg hgt]
    rw [show (((((content.length : Int) + 0).toNat : Nat)) : Int) =
      ((min N content.length : Nat) : Int) from by omega]
    by_cases hc : ((min N content.length : Nat) : Int) + offset < 0
    · simp only [if_pos hc]
    · simp only [if_neg hc]

/-- C8: the `Truncator` view over a file of content `content` at
position `pos` with truncation size `N` behaves exactly as a plain file
containing only the first `N` bytes (`specView`): `readinto` returns the
same bytes and moves to the same position, `seek` (for every `whence`,
including seeks relative to end-of-file) returns the same position and
commutes with the view, neither operation mutates the underlying content
or the size, and `write` always fails with `io.UnsupportedOperation`. -/
theorem truncator_behaves_as_prefix (t : Truncator) (buflen : Nat)
    (offset : Int) (whence : Whence) (data : List Nat) :
    ((t.readinto buflen).1 = (t.specView.readinto buflen).1
      ∧ (t.readinto buflen).2.specView = (t.specView.readinto buflen).2
      ∧ (t.readinto buflen).2.fobj.content = t.fobj.content
      ∧ (t.readinto buflen).2.size = t.size)
    ∧ ((t.seek offset whence).map (fun r => (r.1, r.2.specView)) =
        (t.specView.seek offset whence)
      ∧ (t.seek offset whence).map (fun r => (r.2.fobj.content, r.2.size)) =
        (t.seek offset whence).map (fun _ => (t.fobj.content, t.size)))
    ∧ t.write data = .error "io.UnsupportedOperation: write" := by
  obtain ⟨⟨content, pos⟩, N⟩ := t
  refine ⟨?_, ?_, rfl⟩
  · refine ⟨?_, ?_, rfl, rfl⟩
    · simp only [Truncator.readinto, Truncator.specView, FileObj.readinto,
        FileObj.tell, List.length_take]
      rw [List.drop_take, List.take_take]
      congr 1
      omega
    · simp only [Truncator.readinto, Truncator.specView, FileObj.readinto,
        FileObj.tell, List.length_take, FileObj.mk.injEq, true_and]
      omega
  · cases whence with
    | SEEK_SET =>
      by_cases hoff : offset < 0
      · simp [Truncator.seek, FileObj.seek, Truncator.specView, hoff, Except.map]
      · simp [Truncator.seek, FileObj.seek, Truncator.specView, hoff, Except.map]
    | SEEK_CUR =>
      by_cases hoff : (pos : Int) + offset < 0
      · simp [Truncator.seek, FileObj.seek, Truncator.specView, hoff, Except.map]
      · simp [Truncator.seek, FileObj.seek, Truncator.specView, hoff, Except.map]
    | SEEK_END =>
      rw [truncator_seek_end]
      have hspec : FileObj.seek (Truncator.specView ⟨⟨content, pos⟩, N⟩)
          offset .SEEK_END =
          if ((min N content.length : Nat) : Int) + offset < 0 then
            .error "OSError: [Errno 22] Invalid argument"
          else .ok ((((min N content.length : Nat) : Int) + offset).toNat,
            ⟨content.take N,
              (((min N content.length : Nat) : Int) + offset).toNat⟩) := by
        rw [show Truncator.specView ⟨⟨content, pos⟩, N⟩ =
          (⟨content.take N, pos⟩ : FileObj) from rfl, fileObj_seek_end,
          List.length_take]
      rw [hspec]
      by_cases h : ((min N content.length : Nat) : Int) + offset < 0
      · rw [if_pos h, if_pos h]
        exact ⟨rfl, rfl⟩
      · rw [if_neg h, if_neg h]
        exact ⟨rfl, rfl⟩

/-- Helper: after unlinking `path`, looking up `path` finds nothing. -/
theorem fs_lookup_unlink_self (fs : SandboxFs) (path : String) :
    fs_lookup (fs_unlink fs path) path = none := by
  induction fs with
  | nil => rfl
  | cons e rest ih =>
    by_cases h : e.1 == path
    · simp only [fs_unlink, List.filter, h] at ih ⊢
      exact ih
    · simp only [fs_unlink, fs_lookup, List.filter, List.find?, h] at ih ⊢
      exact ih

/-- Helper: unlinking `p` does not change lookups at other paths. -/
theorem fs_lookup_unlink_other (fs : SandboxFs) (p q : String) (h : q ≠ p) :
    fs_lookup (fs_unlink fs p) q = fs_lookup fs q := by
  induction fs with
  | nil => rfl
  | cons e rest ih =>
    by_cases he : e.1 == p
    · have he' : e.1 = p := by simpa using he
      have heq : (e.1 == q) = false := by
        simp only [beq_eq_false_iff_ne, he']
        exact fun hh => h hh.symm
      simpa [fs_unlink, fs_lookup, List.filter, List.find?, he, heq] using ih
    · by_cases heq : e.1 == q
      · simp [fs_unlink, fs_lookup, List.filter, List.find?, he, heq]
      · simpa [fs_unlink, fs_lookup, List.filter, List.find?, he, heq] using ih

/-- C10: `create_file` with `override = False` fails with `OSError` when
a file already exists at the path (the file is opened with
`O_CREAT | O_EXCL`) and succeeds when none does; with `override = True`
any existing file is unlinked first, so creation always succeeds and the
path now holds the fresh empty file, other paths being untouched. -/
theorem create_file_excl_semantics (fs : SandboxFs) (path : String)
    (executable : Bool) :
    ((fs_lookup fs path).isSome →
      SandboxBase.create_file fs path executable false =
        .error "OSError: [Errno 17] File exists")
    ∧ ((fs_lookup fs path).isNone →
      SandboxBase.create_file fs path executable false =
        .ok ((path, []) :: fs))
    ∧ (∃ fs', SandboxBase.create_file fs path executable true = .ok fs'
      ∧ fs_lookup fs' path = some []
      ∧ ∀ q, q ≠ path → fs_lookup fs' q = fs_lookup fs q) := by
  refine ⟨?_, ?_, ?_⟩
  · intro h
    simp [SandboxBase.create_file, h]
  · intro h
    simp [SandboxBase.create_file, Option.isNone_iff_eq_none.1 h]
  · refine ⟨(path, []) :: fs_unlink fs path, ?_, ?_, ?_⟩
    · simp [SandboxBase.create_file, fs_lookup_unlink_self]
    · simp [fs_lookup, List.find?]
    · intro q hq
      have hpq : (path == q) = false := by
        simp only [beq_eq_false_iff_ne]
        exact fun hh => hq hh.symm
      have hhead : fs_lookup ((path, []) :: fs_unlink fs path) q =
          fs_lookup (fs_unlink fs path) q := by
        simp [fs_lookup, List.find?, hpq]
      rw [hhead]
      exact fs_lookup_unlink_other fs path q hq

/-- Witness for `create_file_excl_semantics` at a concrete one-file
sandbox file system. -/
theorem create_file_excl_semantics_witness :
    SandboxBase.create_file [("a.txt", [1, 2])] "a.txt" false false =
        .error "OSError: [Errno 17] File exists"
    ∧ SandboxBase.create_file [("a.txt", [1, 2])] "b.txt" false false =
        .ok [("b.txt", []), ("a.txt", [1, 2])]
    ∧ ∃ fs', SandboxBase.create_file [("a.txt", [1, 2])] "a.txt" false true =
        .ok fs' ∧ fs_lookup fs' "a.txt" = some [] :=
  ⟨(create_file_excl_semantics [("a.txt", [1, 2])] "a.txt" false).1 (by decide),
    (create_file_excl_semantics [("a.txt", [1, 2])] "b.txt" false).2.1 (by decide),
    (create_file_excl_semantics [("a.txt", [1, 2])] "a.txt" false).2.2.elim
      (fun fs' h => ⟨fs', h.1, h.2.1⟩)⟩

/-- Witness for `checker_stderr_becomes_message`: a wrong-answer checker
run with stderr `"expected 3, found 4"`. -/
theorem checker_stderr_becomes_message_witness :
    (check (Package.mk 1000 256) (RunLog.mk "ok" 0 (1/2))
        (fun _ => some (CheckerRun.mk 1 "expected 3, found 4" ""))).message =
      some "expected 3, found 4" :=
  (checker_stderr_becomes_message (Package.mk 1000 256) (RunLog.mk "ok" 0 (1/2))
      (CheckerRun.mk 1 "expected 3, found 4" "") (by decide) (by norm_num)).1
    (by decide)

end Codefreaker
